import Mathlib

/-!
Verification of the lightbox navigation and layout engine of the
photo-gallery application: the `SharedModal` viewer component
(`utils/types.ts`) and the collection builder `getStaticProps`
(`pages/index.tsx`).  JavaScript numbers appearing in ratio arithmetic are
modelled as rationals; integer-valued identifiers as integers.
-/

/-- JavaScript `Math.round` on rational values: round half towards positive
infinity, `Math.round(x) = ⌊x + 0.5⌋`. -/
def jsRound (q : ℚ) : ℤ := ⌊q + 1/2⌋

/-- One image's gallery metadata, `ImageProps` in `utils/types.ts`:
`width`/`height` are decimal-string-encoded intrinsic dimensions, `id` is the
URL-addressable identifier, `navigationId` the separate navigation ordering. -/
structure ImageProps where
  id : ℤ
  height : String
  width : String
  public_id : String
  format : String
  blurDataUrl : Option String := none
  navigationId : ℤ
deriving DecidableEq

/-- `calculateDimensions` from `SharedModal` (`utils/types.ts` lines
100–123), as a function of the viewport size (`window.innerWidth`,
`window.innerHeight`) and of the numeric intrinsic dimensions
(`Number(currentImage.width)`, `Number(currentImage.height)`).  The closure
reads nothing but these inputs; in particular it never reads the previously
stored `dimensions` state, which `setDimensions` simply replaces. -/
def calculateDimensions (innerWidth innerHeight imageWidth imageHeight : ℚ) : ℤ × ℤ :=
  let maxWidth := min 1280 (innerWidth - 100)
  let maxHeight := innerHeight - 100
  let ratio := imageWidth / imageHeight
  if ratio > 1 then
    let width := min maxWidth imageWidth
    let height := width / ratio
    (jsRound width, jsRound height)
  else
    let height := min maxHeight imageHeight
    let width := height * ratio
    (jsRound width, jsRound height)

/-- `computeDisplayDimensions` exactly as worded in the specification §4.2:
`maxW = min(1280, viewportWidth - 100)`, `maxH = viewportHeight - 100`,
`ratio = intrinsicWidth / intrinsicHeight`; landscape (`ratio > 1`) gives
`width = min(maxW, intrinsicWidth)`, `height = width / ratio`, otherwise
`height = min(maxH, intrinsicHeight)`, `width = height * ratio`; both outputs
rounded to the nearest integer. -/
def computeDisplayDimensionsSpec (viewportWidth viewportHeight intrinsicWidth intrinsicHeight : ℚ) : ℤ × ℤ :=
  let maxW := min 1280 (viewportWidth - 100)
  let maxH := viewportHeight - 100
  let ratio := intrinsicWidth / intrinsicHeight
  if ratio > 1 then
    let width := min maxW intrinsicWidth
    (jsRound width, jsRound (width / ratio))
  else
    let height := min maxH intrinsicHeight
    (jsRound (height * ratio), jsRound height)

/-- Modelled from the spec: the helper `range(a, b)` is imported from
`utils/range`, which is not among the supplied sources.  Specification §4.1
and §8 state that the filmstrip window built from `range(index - 15,
index + 15)` contains every id in `[currentId - radius, currentId + radius]`
inclusive, at most `2 * radius + 1` entries, so `range a b` materialises the
inclusive integer interval `[a, b]`. -/
def range (a b : ℤ) : List ℤ :=
  (List.range (b + 1 - a).toNat).map (fun k : ℕ => a + (k : ℤ))

/-- `filteredImages` from `SharedModal` (`utils/types.ts` lines 67–69): the
filmstrip keeps exactly the images whose `id` falls in the window around the
current `index`. -/
def filteredImages (images : List ImageProps) (index : ℤ) : List ImageProps :=
  images.filter (fun img => (range (index - 15) (index + 15)).contains img.id)

/-- The swipe-gesture neighbour lookup of the `useSwipeable` handlers
(`utils/types.ts` lines 71–94): resolve the current image by `id == index`;
if found, find the image whose `navigationId` equals the current one's plus
`step` (`step = 1` in `onSwipedLeft`, `step = -1` in `onSwipedRight`);
otherwise nothing. -/
def neighborByNavigationOrder (images : List ImageProps) (index step : ℤ) : Option ImageProps :=
  match images.find? (fun img => img.id == index) with
  | some currentImage =>
      images.find? (fun img => img.navigationId == currentImage.navigationId + step)
  | none => none

/-- The `changePhotoId` invocations that a single run of the `onSwipedLeft`
handler performs: one call with the next image's `id` when both the current
image and its navigation successor resolve, none otherwise. -/
def onSwipedLeftCalls (images : List ImageProps) (index : ℤ) : List ℤ :=
  match neighborByNavigationOrder images index 1 with
  | some nextImage => [nextImage.id]
  | none => []

/-- The `SharedModal` component state relevant to the load flag: the `index`
prop (changed by the parent on navigation via `changePhotoId`) and the
`loaded` flag (`useState(false)` at line 64 of `utils/types.ts`). -/
structure ModalState where
  index : ℤ
  loaded : Bool
deriving DecidableEq

/-- State when the modal mounts: `useState(false)` initialises `loaded`. -/
def initialModalState (index : ℤ) : ModalState :=
  { index := index, loaded := false }

/-- An accepted navigation: the parent re-renders `SharedModal` with a new
`index` prop.  No code path in `SharedModal` writes `loaded` on navigation;
the component instance and its `useState` cell persist. -/
def applyNavigate (s : ModalState) (newIndex : ℤ) : ModalState :=
  { s with index := newIndex }

/-- The `onLoad={() => setLoaded(true)}` handler of the main image
(`utils/types.ts` line 192). -/
def applyImageLoad (s : ModalState) : ModalState :=
  { s with loaded := true }

/-- Render condition of the previous-photo button (`utils/types.ts` lines
202–214): it sits inside `{loaded && …}`, then `{navigation && …}`, then
`{index > 0 && …}`. -/
def prevButtonRendered (loaded navigation : Bool) (index : ℤ) : Bool :=
  loaded && (navigation && decide (0 < index))

/-- Render condition of the next-photo button (`utils/types.ts` lines
202–223): `{loaded && …}`, `{navigation && …}`, `{index + 1 < images.length
&& …}`. -/
def nextButtonRendered (loaded navigation : Bool) (index len : ℤ) : Bool :=
  loaded && (navigation && decide (index + 1 < len))

/-- Render condition of the open-original link (`utils/types.ts` lines
226–238): inside `{loaded && …}`, shown when `navigation` is set. -/
def openOriginalRendered (loaded navigation : Bool) : Bool :=
  loaded && navigation

/-- Render condition of the close button (`utils/types.ts` lines 239–250):
inside `{loaded && …}`, rendered unconditionally there. -/
def closeButtonRendered (loaded : Bool) : Bool :=
  loaded

/-- Render condition of the bottom filmstrip (`utils/types.ts` lines
253–299): guarded only by `{navigation && …}`; the `loaded` flag does not
appear in this branch of the JSX, so the argument is deliberately unused. -/
def filmstripRendered (loaded navigation : Bool) : Bool :=
  navigation

/-- One Cloudinary search result row (`results.resources` in
`pages/index.tsx`), restricted to the fields `getStaticProps` copies. -/
structure Resource where
  height : String
  width : String
  public_id : String
  format : String
deriving DecidableEq

/-- Swap the entries at positions `i` and `j` (the JS destructuring swap
`[a[i], a[j]] = [a[j], a[i]]`); out-of-range positions leave the list
unchanged (the shuffle only ever produces in-range positions). -/
def swapList {α : Type} (l : List α) (i j : Nat) : List α :=
  match l[i]?, l[j]? with
  | some a, some b => (l.set i b).set j a
  | _, _ => l

/-- The Fisher–Yates loop of `shuffleArray` (`pages/index.tsx` lines 15–22):
iteration at position `i` swaps positions `i` and `rand i`, where `rand i`
models `Math.floor(Math.random() * (i + 1))`, a value in `[0, i]`; the loop
runs `i = n - 1, …, 1`. -/
def shuffleFrom {α : Type} (rand : Nat → Nat) (l : List α) : Nat → List α
  | 0 => l
  | i + 1 => shuffleFrom rand (swapList l (i + 1) (rand (i + 1))) i

/-- `shuffleArray` (`pages/index.tsx` lines 15–22), with the stream of
`Math.random`-derived choices supplied as `rand`. -/
def shuffleArray {α : Type} (l : List α) (rand : Nat → Nat) : List α :=
  shuffleFrom rand l (l.length - 1)

/-- Technical default record for out-of-range list access; the collection
builder only indexes with members of a permutation of `0..N-1`, which are
always in range. -/
def defaultImage : ImageProps :=
  { id := 0, height := "", width := "", public_id := "", format := "",
    blurDataUrl := none, navigationId := 0 }

/-- `reducedResults` (`pages/index.tsx` lines 126–133): the search results
with sequential `id` and `navigationId` equal to the array position. -/
def reducedResults (resources : List Resource) : List ImageProps :=
  resources.enum.map (fun p =>
    { id := Int.ofNat p.1, height := p.2.height, width := p.2.width,
      public_id := p.2.public_id, format := p.2.format,
      blurDataUrl := none, navigationId := Int.ofNat p.1 })

/-- `randomizedResults` of `getStaticProps` (`pages/index.tsx` lines
126–144): `shuffledOrder = shuffleArray(originalOrder)` with `originalOrder
= [0, …, N-1]`; each output record copies `reducedResults[newIndex]`,
keeping its `id` (`id: reducedResults[newIndex].id`) and setting
`navigationId: newIndex`.  The later `blurDataUrl` patching touches no field
used here. -/
def buildCollection (resources : List Resource) (rand : Nat → Nat) : List ImageProps :=
  let reduced := reducedResults resources
  let originalOrder := List.range reduced.length
  let shuffledOrder := shuffleArray originalOrder rand
  shuffledOrder.map (fun newIndex =>
    let r := reduced.getD newIndex defaultImage
    { r with id := r.id, navigationId := Int.ofNat newIndex })

/-- The integer list `[0, …, N-1]`, the value range of dense identifiers. -/
def intRange (N : Nat) : List ℤ :=
  (List.range N).map Int.ofNat

/-! Concrete collections used as witnesses and counterexamples. -/

/-- A two-image collection with `navigationId` equal to `id`, as the builder
produces. -/
def demoImages : List ImageProps :=
  [{ id := 0, height := "1000", width := "2000", public_id := "a",
     format := "jpg", blurDataUrl := none, navigationId := 0 },
   { id := 1, height := "1600", width := "800", public_id := "b",
     format := "jpg", blurDataUrl := none, navigationId := 1 }]

/-- A three-image collection whose `navigationId` ordering differs from the
`id` ordering. -/
def invImages : List ImageProps :=
  [{ id := 0, height := "1", width := "1", public_id := "a",
     format := "jpg", blurDataUrl := none, navigationId := 2 },
   { id := 1, height := "1", width := "1", public_id := "b",
     format := "jpg", blurDataUrl := none, navigationId := 0 },
   { id := 2, height := "1", width := "1", public_id := "c",
     format := "jpg", blurDataUrl := none, navigationId := 1 }]

/-- A collection in which two records share `navigationId = 1`, violating
the bijection invariant. -/
def dupNavImages : List ImageProps :=
  [{ id := 0, height := "1", width := "1", public_id := "a",
     format := "jpg", blurDataUrl := none, navigationId := 0 },
   { id := 1, height := "1", width := "1", public_id := "b",
     format := "jpg", blurDataUrl := none, navigationId := 1 },
   { id := 2, height := "1", width := "1", public_id := "c",
     format := "jpg", blurDataUrl := none, navigationId := 1 }]

/-- A dense 31-image collection with `navigationId = id = position`. -/
def denseImages : List ImageProps :=
  (List.range 31).map (fun k =>
    { id := Int.ofNat k, height := "1", width := "1", public_id := "p",
      format := "jpg", blurDataUrl := none, navigationId := Int.ofNat k })

/-- Two concrete search-result rows for exercising the collection builder. -/
def demoResources : List Resource :=
  [{ height := "1000", width := "2000", public_id := "a", format := "jpg" },
   { height := "1600", width := "800", public_id := "b", format := "jpg" }]

/-- A concrete random stream: every draw is 0, so the Fisher–Yates pass
rotates the list. -/
def demoRand : Nat → Nat := fun _ => 0

/-- Claim C1: for every record with numeric intrinsic dimensions and every
viewport, `calculateDimensions` agrees with the specified
`computeDisplayDimensions` formula (`maxW = min(1280, viewportWidth - 100)`,
`maxH = viewportHeight - 100`, ratio-directed branch, both outputs rounded
to nearest), and it is a pure function of the record and viewport inputs
alone — the embedding takes nothing else, in particular no previously
computed dimensions.  The specification's portrait worked example is
included. -/
theorem calculateDimensions_matches_spec :
    (∀ vw vh w h : ℚ, 0 < h →
      calculateDimensions vw vh w h = computeDisplayDimensionsSpec vw vh w h) ∧
    calculateDimensions 1400 900 800 1600 = (400, 800) := by
  constructor
  · intro vw vh w h _
    rfl
  · norm_num [calculateDimensions, jsRound]

/-- Witness for claim C1 at the portrait worked example. -/
theorem calculateDimensions_matches_spec_witness :
    (0 : ℚ) < 1600 ∧
    calculateDimensions 1400 900 800 1600 = computeDisplayDimensionsSpec 1400 900 800 1600 :=
  ⟨by norm_num, calculateDimensions_matches_spec.1 1400 900 800 1600 (by norm_num)⟩

/-- Claim C8 (counterexample): the landscape worked example 2000×1000 at
viewport 1400×900 does not yield `{1180, 590}`. -/
theorem calculateDimensions_landscape_cex :
    calculateDimensions 1400 900 2000 1000 ≠ (1180, 590) := by
  norm_num [calculateDimensions, jsRound]

/-- Claim C8 (amended): the landscape example 2000×1000 at viewport
1400×900 yields `{1280, 640}`: `maxW = min(1280, 1300) = 1280`,
`width = min(1280, 2000) = 1280`, `height = 1280 / 2 = 640`. -/
theorem calculateDimensions_landscape_example :
    calculateDimensions 1400 900 2000 1000 = (1280, 640) := by
  norm_num [calculateDimensions, jsRound]

/-- Claim C5 (counterexample): after the first image has loaded, an accepted
navigation does not reset the `loaded` flag to `false`; the stale value
carries over into the new image's render. -/
theorem imageLoaded_reset_cex :
    ¬ (applyNavigate (applyImageLoad (initialModalState 0)) 1).loaded = false := by
  decide

/-- Claim C5 (amended): `loaded` starts `false` when the modal mounts and is
set by the image load handler, but no navigation path writes it: an accepted
navigation leaves `loaded` exactly as it was, so a previous image's loaded
state persists into the next image's render. -/
theorem imageLoaded_never_reset_on_navigation :
    ∀ (s : ModalState) (newIndex startIndex : ℤ),
      (applyNavigate s newIndex).loaded = s.loaded ∧
      (applyImageLoad s).loaded = true ∧
      (initialModalState startIndex).loaded = false := by
  intro s newIndex startIndex
  exact ⟨rfl, rfl, rfl⟩

/-- Claim C6 (counterexample): the bottom filmstrip is rendered in a state
where `loaded` is `false` (its guard is `navigation` alone). -/
theorem filmstrip_rendered_while_unloaded_cex :
    filmstripRendered false true = true := by
  decide

/-- Claim C6 (amended): the overlay controls — previous/next buttons, close
button, open-original link — are rendered only when `loaded` is `true`, but
the bottom filmstrip is guarded by the `navigation` flag alone, regardless
of `loaded`. -/
theorem overlay_controls_gated_by_loaded :
    ∀ (navigation : Bool) (index len : ℤ),
      prevButtonRendered false navigation index = false ∧
      nextButtonRendered false navigation index len = false ∧
      openOriginalRendered false navigation = false ∧
      closeButtonRendered false = false ∧
      (∀ loaded : Bool, filmstripRendered loaded navigation = navigation) := by
  intro navigation index len
  refine ⟨?_, ?_, ?_, rfl, fun _ => rfl⟩ <;>
    simp [prevButtonRendered, nextButtonRendered, openOriginalRendered]

/-- Claim C4 (counterexample): two invocations of the left-swipe handler in
the same logical tick (the `index` prop has not yet changed) invoke
`changePhotoId` twice, not exactly once — there is no duplicate
suppression in the handlers. -/
theorem swipe_double_invocation_cex :
    ¬ (onSwipedLeftCalls demoImages 0 ++ onSwipedLeftCalls demoImages 0).length = 1 := by
  decide

/-- Claim C4 (amended): each invocation of the swipe handler that resolves
both the current image and its navigation successor invokes the external
callback exactly once, but the handlers perform no duplicate suppression:
two invocations with the same state within one logical tick produce two
callback invocations. -/
theorem swipe_calls_once_per_invocation :
    ∀ (images : List ImageProps) (index : ℤ),
      (neighborByNavigationOrder images index 1).isSome = true →
      (onSwipedLeftCalls images index).length = 1 ∧
      (onSwipedLeftCalls images index ++ onSwipedLeftCalls images index).length = 2 := by
  intro images index hsome
  obtain ⟨B, hB⟩ := Option.isSome_iff_exists.mp hsome
  simp [onSwipedLeftCalls, hB]

/-- Witness for the amended claim C4 on the two-image demo collection. -/
theorem swipe_calls_once_per_invocation_witness :
    (neighborByNavigationOrder demoImages 0 1).isSome = true ∧
    ((onSwipedLeftCalls demoImages 0).length = 1 ∧
      (onSwipedLeftCalls demoImages 0 ++ onSwipedLeftCalls demoImages 0).length = 2) :=
  ⟨by decide, swipe_calls_once_per_invocation demoImages 0 (by decide)⟩

/-- Claim C9 (counterexample): on a collection where two records share
`navigationId = 1`, the resolver does not fail with any error — its return
type has no error outcome — and silently returns the first matching record. -/
theorem duplicate_navigationId_cex :
    dupNavImages.map (fun img => img.navigationId) = [0, 1, 1] ∧
    neighborByNavigationOrder dupNavImages 0 1 =
      some { id := 1, height := "1", width := "1", public_id := "b",
             format := "jpg", blurDataUrl := none, navigationId := 1 } := by
  decide

/-- Claim C9 (amended): whenever the current record resolves and at least
one record carries the target `navigationId` — including collections where
several duplicates do — the resolver silently returns some matching record
(the first in supply order); no `InvariantViolation` or any other failure is
raised. -/
theorem neighbor_silently_picks_match :
    ∀ (images : List ImageProps) (index step : ℤ) (cur B : ImageProps),
      images.find? (fun img => img.id == index) = some cur →
      B ∈ images →
      B.navigationId = cur.navigationId + step →
      ∃ r, neighborByNavigationOrder images index step = some r ∧
        r.navigationId = cur.navigationId + step := by
  intro images index step cur B hcur hBmem hBnav
  have hsome : (images.find? (fun img => img.navigationId == cur.navigationId + step)).isSome = true := by
    rw [List.find?_isSome]
    exact ⟨B, hBmem, by simp [hBnav]⟩
  obtain ⟨r, hr⟩ := Option.isSome_iff_exists.mp hsome
  refine ⟨r, ?_, ?_⟩
  · unfold neighborByNavigationOrder
    rw [hcur]
    exact hr
  · have := List.find?_some hr
    simpa using this

/-- Witness for the amended claim C9 on the duplicate-`navigationId`
collection. -/
theorem neighbor_silently_picks_match_witness :
    dupNavImages.find? (fun img => img.id == 0) =
      some { id := 0, height := "1", width := "1", public_id := "a",
             format := "jpg", blurDataUrl := none, navigationId := 0 } ∧
    ({ id := 2, height := "1", width := "1", public_id := "c",
       format := "jpg", blurDataUrl := none, navigationId := 1 } : ImageProps) ∈ dupNavImages ∧
    (∃ r, neighborByNavigationOrder dupNavImages 0 1 = some r ∧ r.navigationId = 0 + 1) :=
  ⟨by decide, by decide,
    neighbor_silently_picks_match dupNavImages 0 1
      { id := 0, height := "1", width := "1", public_id := "a",
        format := "jpg", blurDataUrl := none, navigationId := 0 }
      { id := 2, height := "1", width := "1", public_id := "c",
        format := "jpg", blurDataUrl := none, navigationId := 1 }
      (by decide) (by decide) (by decide)⟩

/-- If the values of `f` over `l` are pairwise distinct, the first element
found by comparing `f`-values with a member `x` is `x` itself. -/
theorem find?_eq_self_of_nodup (f : ImageProps → ℤ) (l : List ImageProps)
    (hn : (l.map f).Nodup) (x : ImageProps) (hx : x ∈ l) :
    l.find? (fun y => f y == f x) = some x := by
  induction l with
  | nil => cases hx
  | cons a t ih =>
    rw [List.map_cons, List.nodup_cons] at hn
    rcases List.mem_cons.mp hx with rfl | hxt
    · exact List.find?_cons_of_pos t (by simp)
    · have hne : (f a == f x) = false := by
        rw [beq_eq_false_iff_ne]
        intro hEq
        exact hn.1 (hEq ▸ List.mem_map_of_mem f hxt)
      rw [List.find?_cons_of_neg t (by simp [hne])]
      exact ih hn.2 hxt

/-- Claim C7: on a collection whose `id` values and `navigationId` values
are each duplicate-free (the supplied-collection invariants), the `+1` and
`-1` navigation-order neighbour lookups are mutually inverse: if `B` is the
`+1`-neighbour of `A`, then `A` is the `-1`-neighbour of `B`. -/
theorem neighbor_navigation_inverse :
    ∀ (images : List ImageProps) (A B : ImageProps),
      (images.map (fun img => img.id)).Nodup →
      (images.map (fun img => img.navigationId)).Nodup →
      A ∈ images →
      neighborByNavigationOrder images A.id 1 = some B →
      neighborByNavigationOrder images B.id (-1) = some A := by
  intro images A B hid hnav hA hAB
  have hfindA : images.find? (fun img => img.id == A.id) = some A :=
    find?_eq_self_of_nodup (fun img => img.id) images hid A hA
  unfold neighborByNavigationOrder at hAB
  rw [hfindA] at hAB
  have hAB2 : images.find? (fun img => img.navigationId == A.navigationId + 1) = some B := hAB
  have hBmem := List.mem_of_find?_eq_some hAB2
  have hBnav : B.navigationId = A.navigationId + 1 := by
    simpa using List.find?_some hAB2
  have hfindB : images.find? (fun img => img.id == B.id) = some B :=
    find?_eq_self_of_nodup (fun img => img.id) images hid B hBmem
  unfold neighborByNavigationOrder
  rw [hfindB]
  show images.find? (fun img => img.navigationId == B.navigationId + (-1)) = some A
  have hstep : B.navigationId + (-1) = A.navigationId := by omega
  rw [hstep]
  exact find?_eq_self_of_nodup (fun img => img.navigationId) images hnav A hA

/-- Witness for claim C7 on the shuffled three-image collection: the record
with `navigationId = 0` has the record with `navigationId = 1` as its
`+1`-neighbour, and the `-1` lookup leads back. -/
theorem neighbor_navigation_inverse_witness :
    (invImages.map (fun img => img.id)).Nodup ∧
    (invImages.map (fun img => img.navigationId)).Nodup ∧
    ({ id := 1, height := "1", width := "1", public_id := "b",
       format := "jpg", blurDataUrl := none, navigationId := 0 } : ImageProps) ∈ invImages ∧
    neighborByNavigationOrder invImages 1 1 =
      some { id := 2, height := "1", width := "1", public_id := "c",
             format := "jpg", blurDataUrl := none, navigationId := 1 } ∧
    neighborByNavigationOrder invImages 2 (-1) =
      some { id := 1, height := "1", width := "1", public_id := "b",
             format := "jpg", blurDataUrl := none, navigationId := 0 } :=
  ⟨by decide, by decide, by decide, by decide,
    neighbor_navigation_inverse invImages
      { id := 1, height := "1", width := "1", public_id := "b",
        format := "jpg", blurDataUrl := none, navigationId := 0 }
      { id := 2, height := "1", width := "1", public_id := "c",
        format := "jpg", blurDataUrl := none, navigationId := 1 }
      (by decide) (by decide) (by decide) (by decide)⟩

/-- Membership in the spec-modelled `range`: exactly the integers of the
inclusive interval `[a, b]`. -/
theorem mem_range_iff (a b x : ℤ) : x ∈ range a b ↔ a ≤ x ∧ x ≤ b := by
  unfold range
  simp only [List.mem_map, List.mem_range]
  constructor
  · rintro ⟨k, hk, rfl⟩
    omega
  · rintro ⟨h1, h2⟩
    exact ⟨(x - a).toNat, by omega, by omega⟩

/-- The boolean membership test on `range` is the pair of comparisons. -/
theorem contains_range (a b x : ℤ) :
    (range a b).contains x = (decide (a ≤ x) && decide (x ≤ b)) := by
  rw [Bool.eq_iff_iff]
  simp only [List.contains_iff_exists_mem_beq, Bool.and_eq_true, decide_eq_true_eq]
  constructor
  · rintro ⟨y, hy, hbeq⟩
    have hxy : x = y := by simpa using hbeq
    exact (mem_range_iff a b x).mp (hxy ▸ hy)
  · intro hx
    exact ⟨x, (mem_range_iff a b x).mpr hx, by simp⟩

/-- `filteredImages` is the filter by the inclusive id-interval
`[index - 15, index + 15]`. -/
theorem filteredImages_eq_filter (images : List ImageProps) (c : ℤ) :
    filteredImages images c
      = images.filter (fun img => decide (c - 15 ≤ img.id) && decide (img.id ≤ c + 15)) := by
  unfold filteredImages
  exact List.filter_congr (fun img _ => contains_range (c - 15) (c + 15) img.id)

/-- Counting the members of `[lo, hi]` among `0, …, N-1`. -/
theorem countP_range_window (N lo hi : Nat) :
    (List.range N).countP (fun i => decide (lo ≤ i) && decide (i ≤ hi))
      = min (hi + 1) N - min lo N := by
  induction N with
  | zero => simp
  | succ n ih =>
    rw [List.range_succ, List.countP_append, ih]
    by_cases h1 : lo ≤ n <;> by_cases h2 : n ≤ hi <;>
      simp [List.countP_cons, h1, h2] <;> omega

/-- Length of the filmstrip window over a collection whose ids are a
permutation of `0, …, N-1`. -/
theorem filteredImages_length (images : List ImageProps) (c : ℤ) (N : Nat)
    (hperm : (images.map (fun img => img.id)).Perm (intRange N)) (hc : 0 ≤ c) :
    (filteredImages images c).length
      = min ((c + 15).toNat + 1) N - min (c - 15).toNat N := by
  rw [filteredImages_eq_filter, ← List.countP_eq_length_filter]
  have h1 : images.countP (fun img => decide (c - 15 ≤ img.id) && decide (img.id ≤ c + 15))
      = (images.map (fun img => img.id)).countP
          (fun i => decide (c - 15 ≤ i) && decide (i ≤ c + 15)) := by
    rw [List.countP_map]
    rfl
  rw [h1, hperm.countP_eq]
  unfold intRange
  rw [List.countP_map]
  have h2 : (List.range N).countP
        ((fun i : ℤ => decide (c - 15 ≤ i) && decide (i ≤ c + 15)) ∘ Int.ofNat)
      = (List.range N).countP
        (fun i : Nat => decide ((c - 15).toNat ≤ i) && decide (i ≤ (c + 15).toNat)) := by
    apply List.countP_congr
    intro i _
    simp only [Function.comp_apply, Int.ofNat_eq_natCast, Bool.and_eq_true,
      decide_eq_true_eq]
    omega
  rw [h2, countP_range_window]

/-- Claim C3: over any collection whose `id` values are the dense range
`0, …, N-1` (in any order), the filmstrip window at `currentId = c` with the
default radius 15 is exactly the subsequence of records whose `id` lies in
the inclusive interval `[c - 15, c + 15]`, kept in the photos' original
relative order; away from the boundaries it has exactly `2 * 15 + 1`
records, and near `id = 0` or `id = N - 1` it has fewer — it never wraps
around, since only ids inside the interval are kept. -/
theorem windowedFilmstrip_spec :
    ∀ (photos : List ImageProps) (c : ℤ) (N : Nat),
      (photos.map (fun img => img.id)).Perm (intRange N) →
      (filteredImages photos c
          = photos.filter (fun img => decide (c - 15 ≤ img.id) && decide (img.id ≤ c + 15)))
      ∧ (filteredImages photos c).Sublist photos
      ∧ (15 ≤ c → c + 15 ≤ (N : ℤ) - 1 →
          (filteredImages photos c).length = 2 * 15 + 1)
      ∧ (0 ≤ c → c < (N : ℤ) → (c < 15 ∨ (N : ℤ) - 1 < c + 15) →
          (filteredImages photos c).length < 2 * 15 + 1) := by
  intro photos c N hperm
  refine ⟨filteredImages_eq_filter photos c, ?_, ?_, ?_⟩
  · unfold filteredImages
    exact List.filter_sublist photos
  · intro h1 h2
    rw [filteredImages_length photos c N hperm (by omega)]
    omega
  · intro h0 hN hb
    rw [filteredImages_length photos c N hperm h0]
    omega

/-- Witness for claim C3 on the dense 31-image collection at `c = 15`, where
the window is the whole collection and the away-from-boundary count 31 is
attained. -/
theorem windowedFilmstrip_spec_witness :
    (denseImages.map (fun img => img.id)).Perm (intRange 31) ∧
    ((filteredImages denseImages 15
        = denseImages.filter (fun img => decide (15 - 15 ≤ img.id) && decide (img.id ≤ 15 + 15)))
      ∧ (filteredImages denseImages 15).Sublist denseImages
      ∧ (15 ≤ (15 : ℤ) → (15 : ℤ) + 15 ≤ (31 : ℤ) - 1 →
          (filteredImages denseImages 15).length = 2 * 15 + 1)
      ∧ ((0 : ℤ) ≤ 15 → (15 : ℤ) < 31 → ((15 : ℤ) < 15 ∨ (31 : ℤ) - 1 < 15 + 15) →
          (filteredImages denseImages 15).length < 2 * 15 + 1)) :=
  ⟨by decide, windowedFilmstrip_spec denseImages 15 31 (by decide)⟩

/-- Swapping two in-range entries (or the identity, out of range) permutes
the list. -/
theorem swapList_perm_nat (l : List ℕ) (i j : ℕ) : (swapList l i j).Perm l := by
  unfold swapList
  split
  · rename_i a b hi hj
    obtain ⟨hil, hia⟩ := List.getElem?_eq_some.mp hi
    obtain ⟨hjl, hjb⟩ := List.getElem?_eq_some.mp hj
    rw [List.perm_iff_count]
    intro x
    have hjl2 : j < (l.set i b).length := by
      rw [List.length_set]
      exact hjl
    have c1 := List.count_set b x l i hil
    have c2 := List.count_set a x (l.set i b) j hjl2
    have hsetj : (l.set i b)[j] = b := by
      rw [List.getElem_set]
      split
      · rfl
      · exact hjb
    rw [hsetj] at c2
    rw [hia] at c1
    rw [c1] at c2
    rw [c2]
    have hcount : (a == x) = true → 1 ≤ l.count x := by
      intro hax
      have hax2 : a = x := by simpa using hax
      have hmem : x ∈ l := hax2 ▸ hia ▸ List.getElem_mem hil
      exact List.count_pos_iff.mpr hmem
    have h1 : (if (a == x) = true then 1 else 0) ≤ l.count x := by
      split
      · next hax => exact hcount hax
      · exact Nat.zero_le _
    omega
  · exact List.Perm.refl l

/-- Every pass of the Fisher–Yates loop permutes the list. -/
theorem shuffleFrom_perm (rand : Nat → Nat) (l : List ℕ) (n : ℕ) :
    (shuffleFrom rand l n).Perm l := by
  induction n generalizing l with
  | zero => exact List.Perm.refl l
  | succ i ih =>
      exact (ih (swapList l (i + 1) (rand (i + 1)))).trans
        (swapList_perm_nat l (i + 1) (rand (i + 1)))

/-- `shuffleArray` returns a permutation of its input, whatever the random
draws are. -/
theorem shuffleArray_perm (l : List ℕ) (rand : Nat → Nat) :
    (shuffleArray l rand).Perm l :=
  shuffleFrom_perm rand l (l.length - 1)

/-- `reducedResults` has one record per search result. -/
theorem reducedResults_length (resources : List Resource) :
    (reducedResults resources).length = resources.length := by
  unfold reducedResults
  rw [List.length_map, List.enum_length]

/-- The `k`-th reduced record carries `id = k` and `navigationId = k`. -/
theorem reducedResults_getD (resources : List Resource) (k : ℕ)
    (hk : k < resources.length) :
    ((reducedResults resources).getD k defaultImage).id = Int.ofNat k ∧
    ((reducedResults resources).getD k defaultImage).navigationId = Int.ofNat k := by
  have hk2 : k < (reducedResults resources).length := by
    rw [reducedResults_length]
    exact hk
  rw [List.getD_eq_getElem _ _ hk2]
  unfold reducedResults
  constructor <;> simp [List.getElem_map, List.getElem_enum]

/-- The collection builder with its let-bindings expanded. -/
theorem buildCollection_eq (resources : List Resource) (rand : Nat → Nat) :
    buildCollection resources rand
      = (shuffleArray (List.range (reducedResults resources).length) rand).map
          (fun newIndex =>
            { (reducedResults resources).getD newIndex defaultImage with
                id := ((reducedResults resources).getD newIndex defaultImage).id,
                navigationId := Int.ofNat newIndex }) := rfl

/-- The `navigationId` column of a built collection is the shuffled order. -/
theorem build_map_navigationId (resources : List Resource) (rand : Nat → Nat) :
    (buildCollection resources rand).map (fun img => img.navigationId)
      = (shuffleArray (List.range (reducedResults resources).length) rand).map Int.ofNat := by
  rw [buildCollection_eq, List.map_map]
  rfl

/-- Every record the builder produces has `navigationId` equal to `id`: both
fields receive the value `shuffledOrder[k]`. -/
theorem build_mem_navigationId_eq_id (resources : List Resource) (rand : Nat → Nat) :
    ∀ img ∈ buildCollection resources rand, img.navigationId = img.id := by
  intro img hmem
  rw [buildCollection_eq] at hmem
  simp only [List.mem_map] at hmem
  obtain ⟨k, hk, rfl⟩ := hmem
  have hkrange : k ∈ List.range (reducedResults resources).length :=
    (shuffleArray_perm _ rand).mem_iff.mp hk
  have hkN : k < resources.length := by
    rw [List.mem_range, reducedResults_length] at hkrange
    exact hkrange
  show Int.ofNat k = ((reducedResults resources).getD k defaultImage).id
  exact (reducedResults_getD resources k hkN).1.symm

/-- The `id` and `navigationId` columns of a built collection coincide. -/
theorem build_map_id_eq_map_navigationId (resources : List Resource) (rand : Nat → Nat) :
    (buildCollection resources rand).map (fun img => img.id)
      = (buildCollection resources rand).map (fun img => img.navigationId) :=
  (List.map_congr_left (build_mem_navigationId_eq_id resources rand)).symm

/-- The `navigationId` column of a built collection is a permutation of
`0, …, N-1`. -/
theorem build_map_navigationId_perm (resources : List Resource) (rand : Nat → Nat) :
    ((buildCollection resources rand).map (fun img => img.navigationId)).Perm
      (intRange resources.length) := by
  rw [build_map_navigationId, reducedResults_length]
  exact (shuffleArray_perm (List.range resources.length) rand).map Int.ofNat

/-- The `id` column of a built collection is a permutation of `0, …, N-1`. -/
theorem build_map_id_perm (resources : List Resource) (rand : Nat → Nat) :
    ((buildCollection resources rand).map (fun img => img.id)).Perm
      (intRange resources.length) := by
  rw [build_map_id_eq_map_navigationId]
  exact build_map_navigationId_perm resources rand

/-- Claim C2 (counterexample): with two resources and a random stream that
always draws 0, the builder emits the records in shuffled order `[1, 0]`:
the record at array position 0 has `id = 1`, so ids do not match array
position. -/
theorem build_ids_positional_cex :
    (buildCollection demoResources demoRand).map (fun img => img.id) = [1, 0] ∧
    (buildCollection demoResources demoRand).map (fun img => img.id) ≠ intRange 2 := by
  constructor
  · decide
  · decide

/-- Claim C2 (amended): for every collection the builder produces, the `id`
values are a permutation — a bijection onto `0..N-1` — but need not match
array position; `navigationId` equals `id` on every record, and is therefore
also a bijection onto `0..N-1`. -/
theorem build_invariants :
    ∀ (resources : List Resource) (rand : Nat → Nat),
      ((buildCollection resources rand).map (fun img => img.id)).Perm
        (intRange resources.length) ∧
      ((buildCollection resources rand).map (fun img => img.navigationId)).Perm
        (intRange resources.length) ∧
      ∀ img ∈ buildCollection resources rand, img.navigationId = img.id :=
  fun resources rand =>
    ⟨build_map_id_perm resources rand, build_map_navigationId_perm resources rand,
      build_mem_navigationId_eq_id resources rand⟩

/-- If the `f`-column of `l` is a permutation of `0, …, N-1`, every value in
that interval is attained by some member. -/
theorem exists_image_with (f : ImageProps → ℤ) (l : List ImageProps) (N : ℕ)
    (h : (l.map f).Perm (intRange N)) (t : ℤ) (h0 : 0 ≤ t) (hN : t < (N : ℤ)) :
    ∃ x ∈ l, f x = t := by
  have ht : t ∈ intRange N := by
    unfold intRange
    simp only [List.mem_map, List.mem_range, Int.ofNat_eq_natCast]
    exact ⟨t.toNat, by omega, by omega⟩
  have ht2 : t ∈ l.map f := h.mem_iff.mpr ht
  simpa using ht2

/-- A satisfiable search yields the first satisfying record. -/
theorem find?_eq_some_of_exists {p : ImageProps → Bool} {l : List ImageProps}
    (h : ∃ x ∈ l, p x = true) :
    ∃ r, l.find? p = some r ∧ p r = true := by
  obtain ⟨r, hr⟩ := Option.isSome_iff_exists.mp (List.find?_isSome.mpr h)
  exact ⟨r, hr, List.find?_some hr⟩

/-- Claim C10: every collection the page-load builder produces has
`navigationId` equal to `id` on every record; consequently the swipe
navigation that steps `navigationId` by ±1 targets exactly the record with
`id = currentId ± 1` — the same neighbour the prev/next buttons target with
raw `id ∓ 1` adjacency. -/
theorem build_navigation_orders_agree :
    ∀ (resources : List Resource) (rand : Nat → Nat) (c : ℤ),
      (∀ img ∈ buildCollection resources rand, img.navigationId = img.id) ∧
      (0 ≤ c → c + 1 < (resources.length : ℤ) →
        ∃ B, neighborByNavigationOrder (buildCollection resources rand) c 1 = some B ∧
          B.id = c + 1) ∧
      (1 ≤ c → c < (resources.length : ℤ) →
        ∃ B, neighborByNavigationOrder (buildCollection resources rand) c (-1) = some B ∧
          B.id = c - 1) := by
  intro resources rand c
  refine ⟨build_mem_navigationId_eq_id resources rand, ?_, ?_⟩
  · intro h0 hN
    obtain ⟨cur, hcurmem, hcurid⟩ :=
      exists_image_with (fun img => img.id) _ resources.length
        (build_map_id_perm resources rand) c h0 (by omega)
    obtain ⟨r, hr, hrp⟩ :=
      find?_eq_some_of_exists (p := fun img => img.id == c)
        ⟨cur, hcurmem, by simp [hcurid]⟩
    have hrid : r.id = c := by simpa using hrp
    have hrnav : r.navigationId = c := by
      rw [build_mem_navigationId_eq_id resources rand r (List.mem_of_find?_eq_some hr), hrid]
    obtain ⟨B0, hB0mem, hB0nav⟩ :=
      exists_image_with (fun img => img.navigationId) _ resources.length
        (build_map_navigationId_perm resources rand) (c + 1) (by omega) (by omega)
    obtain ⟨B, hB, hBp⟩ :=
      find?_eq_some_of_exists (p := fun img => img.navigationId == r.navigationId + 1)
        ⟨B0, hB0mem, by simp [hB0nav, hrnav]⟩
    refine ⟨B, ?_, ?_⟩
    · unfold neighborByNavigationOrder
      rw [hr]
      exact hB
    · have hBnav : B.navigationId = r.navigationId + 1 := by simpa using hBp
      have hBid := build_mem_navigationId_eq_id resources rand B (List.mem_of_find?_eq_some hB)
      omega
  · intro h1 hN
    obtain ⟨cur, hcurmem, hcurid⟩ :=
      exists_image_with (fun img => img.id) _ resources.length
        (build_map_id_perm resources rand) c (by omega) hN
    obtain ⟨r, hr, hrp⟩ :=
      find?_eq_some_of_exists (p := fun img => img.id == c)
        ⟨cur, hcurmem, by simp [hcurid]⟩
    have hrid : r.id = c := by simpa using hrp
    have hrnav : r.navigationId = c := by
      rw [build_mem_navigationId_eq_id resources rand r (List.mem_of_find?_eq_some hr), hrid]
    obtain ⟨B0, hB0mem, hB0nav⟩ :=
      exists_image_with (fun img => img.navigationId) _ resources.length
        (build_map_navigationId_perm resources rand) (c - 1) (by omega) (by omega)
    obtain ⟨B, hB, hBp⟩ :=
      find?_eq_some_of_exists (p := fun img => img.navigationId == r.navigationId + (-1))
        ⟨B0, hB0mem, by simp [hB0nav, hrnav]; omega⟩
    refine ⟨B, ?_, ?_⟩
    · unfold neighborByNavigationOrder
      rw [hr]
      exact hB
    · have hBnav : B.navigationId = r.navigationId + (-1) := by simpa using hBp
      have hBid := build_mem_navigationId_eq_id resources rand B (List.mem_of_find?_eq_some hB)
      omega

/-- Witness for claim C10 on the concrete two-image build: from `id = 0`
the swipe successor is the record with `id = 1`, and from `id = 1` the swipe
predecessor is the record with `id = 0`. -/
theorem build_navigation_orders_agree_witness :
    (∀ img ∈ buildCollection demoResources demoRand, img.navigationId = img.id) ∧
    (∃ B, neighborByNavigationOrder (buildCollection demoResources demoRand) 0 1 = some B ∧
      B.id = 0 + 1) ∧
    (∃ B, neighborByNavigationOrder (buildCollection demoResources demoRand) 1 (-1) = some B ∧
      B.id = 1 - 1) :=
  ⟨(build_navigation_orders_agree demoResources demoRand 0).1,
    (build_navigation_orders_agree demoResources demoRand 0).2.1 (by decide) (by decide),
    (build_navigation_orders_agree demoResources demoRand 1).2.2 (by decide) (by decide)⟩
